import Mathlib

/-!
Shallow embedding of the hold-intent detection core of the
elgato-pedal-controller-linux repository, together with theorems checking
the natural-language specification against it.

Source files embedded:
  * `src/button_types.rs` — `ButtonState`, `ButtonEventType`, `ButtonEvent`,
    `ButtonInput`.
  * `src/token_based_config.rs` — `PhysicalButtonName` (the configuration
    parser behind the mutex is abstracted as `ConfigEnv`, see below).
  * `src/button_state_machine.rs` — `ButtonStateMachine` and its operations,
    `StateTransition`.
  * `src/hold_intent_state_machine.rs` — `ButtonConfig`, `HoldIntentLogic`
    and its methods, in particular `process_input`.
  * `src/hold_intent_parser.rs` — the older monolithic `HoldIntentParser`
    with its own `ButtonState` / `ButtonEventType` and `parse_hid_data`
    (namespace `PedalParser` below).

Timestamps (`std::time::Instant`) are modelled as natural numbers counting
milliseconds; `Instant::duration_since` saturates at zero in Rust, which
matches truncated subtraction on `Nat`.  `u32`/`u64` counters and
millisecond thresholds are modelled as `Nat`; their overflow is unreachable
at the time scales involved and no claim concerns wrap-around.
-/

namespace PedalCore

/-- Button states, from `src/button_types.rs` (`enum ButtonState`). -/
inductive ButtonState where
  | IDLE
  | EVALUATING
  | HELD
  | RELEASING
deriving DecidableEq, Repr

/-- Button event types, from `src/button_types.rs` (`enum ButtonEventType`). -/
inductive ButtonEventType where
  | PRESSED
  | HELD
  | RELEASING
  | RELEASED
deriving DecidableEq, Repr

/-- Physical buttons, from `src/token_based_config.rs` (`enum PhysicalButtonName`). -/
inductive PhysicalButtonName where
  | Button1
  | Button2
  | Button3
deriving DecidableEq, Repr

/-- Emitted event, from `src/button_types.rs` (`struct ButtonEvent`). -/
structure ButtonEvent where
  button_name : PhysicalButtonName
  event_type : ButtonEventType
deriving DecidableEq, Repr

/-- Input sample, from `src/button_types.rs` (`struct ButtonInput`). -/
structure ButtonInput where
  button_name : PhysicalButtonName
  is_pressed : Bool
deriving DecidableEq, Repr

/-- Per-button state holder, from `src/button_state_machine.rs`
(`struct ButtonStateMachine<S>`).  Times are milliseconds as `Nat`. -/
structure ButtonStateMachine (S : Type) where
  current_state : S
  first_signal_time : Option Nat
  last_signal_time : Option Nat
  signal_count : Nat
  action_fired : Bool
deriving DecidableEq, Repr

namespace ButtonStateMachine

variable {S : Type}

/-- `ButtonStateMachine::new`. -/
def new (initial_state : S) : ButtonStateMachine S :=
  { current_state := initial_state
    first_signal_time := none
    last_signal_time := none
    signal_count := 0
    action_fired := false }

/-- `ButtonStateMachine::state`. -/
def state (sm : ButtonStateMachine S) : S :=
  sm.current_state

/-- `ButtonStateMachine::transition_to`. -/
def transition_to (sm : ButtonStateMachine S) (new_state : S) : ButtonStateMachine S :=
  { sm with current_state := new_state }

/-- `ButtonStateMachine::record_signal`: sets the first-signal time on the
first call since the last reset, else increments the count. -/
def record_signal (sm : ButtonStateMachine S) (now : Nat) : ButtonStateMachine S :=
  if sm.first_signal_time.isNone then
    { sm with first_signal_time := some now, signal_count := 1, last_signal_time := some now }
  else
    { sm with signal_count := sm.signal_count + 1, last_signal_time := some now }

/-- `ButtonStateMachine::time_since_first_signal`; `Instant::duration_since`
saturates at zero, as does `Nat` subtraction. -/
def time_since_first_signal (sm : ButtonStateMachine S) (now : Nat) : Option Nat :=
  sm.first_signal_time.map (fun first => now - first)

/-- `ButtonStateMachine::mark_action_fired`. -/
def mark_action_fired (sm : ButtonStateMachine S) : ButtonStateMachine S :=
  { sm with action_fired := true }

/-- `ButtonStateMachine::reset`. -/
def reset (sm : ButtonStateMachine S) (initial_state : S) : ButtonStateMachine S :=
  { current_state := initial_state
    first_signal_time := none
    last_signal_time := none
    signal_count := 0
    action_fired := false }

end ButtonStateMachine

/-- Result of one logic step, from `src/button_state_machine.rs`
(`enum StateTransition<E>`). -/
inductive StateTransition (E : Type) where
  | Continue
  | EmitEvents (events : List E)
  | Reset
deriving DecidableEq, Repr

/-- The events carried by a `StateTransition` (`EmitEvents` carries its
list, `Continue` and `Reset` carry none). -/
def StateTransition.events_of {E : Type} : StateTransition E → List E
  | .EmitEvents events => events
  | .Continue => []
  | .Reset => []

/-- Abstraction of the `Arc<Mutex<TokenBasedParser>>` configuration
collaborator used by `HoldIntentLogic`.  `lock_ok` models whether
`config_src.lock()` succeeds (a poisoned mutex fails every call);
`has_pressed`, `has_held`, `has_releasing` model
`get_actions_for_button_event(b, "PRESSED" | "HELD" | "RELEASING").is_some()`;
`hold_threshold b d` models `get_hold_threshold_ms(b, d)` (the hierarchical
per-button > device > global-default resolver, whose body is not part of
the embedded core), taking the global default `d` as its second argument. -/
structure ConfigEnv where
  lock_ok : Bool
  has_pressed : PhysicalButtonName → Bool
  has_held : PhysicalButtonName → Bool
  has_releasing : PhysicalButtonName → Bool
  hold_threshold : PhysicalButtonName → Nat → Nat

/-- Per-evaluation derived configuration, from
`src/hold_intent_state_machine.rs` (`struct ButtonConfig`). -/
structure ButtonConfig where
  has_pressed_action : Bool
  has_held_action : Bool
  threshold_ms : Nat
deriving DecidableEq, Repr

/-- The concrete strategy, from `src/hold_intent_state_machine.rs`
(`struct HoldIntentLogic`). -/
structure HoldIntentLogic where
  global_default_threshold_ms : Nat
  config_src : ConfigEnv

namespace HoldIntentLogic

/-- `HoldIntentLogic::get_quick_release_threshold_ms`: 60% of the button's
hold threshold with a minimum of 200ms; 200 on lock failure. -/
def get_quick_release_threshold_ms (l : HoldIntentLogic) (button_name : PhysicalButtonName) :
    Nat :=
  if l.config_src.lock_ok then
    Nat.max ((l.config_src.hold_threshold button_name l.global_default_threshold_ms * 60) / 100)
      200
  else 200

/-- `HoldIntentLogic::get_evaluation_window_ms`: 120% of the button's hold
threshold; 1200 on lock failure.  (Used only for logging in the source.) -/
def get_evaluation_window_ms (l : HoldIntentLogic) (button_name : PhysicalButtonName) : Nat :=
  if l.config_src.lock_ok then
    (l.config_src.hold_threshold button_name l.global_default_threshold_ms * 120) / 100
  else 1200

/-- `HoldIntentLogic::get_button_config`: on lock failure falls back to a
configuration with no actions and the global default threshold. -/
def get_button_config (l : HoldIntentLogic) (button_name : PhysicalButtonName) : ButtonConfig :=
  if l.config_src.lock_ok then
    { has_pressed_action := l.config_src.has_pressed button_name
      has_held_action := l.config_src.has_held button_name
      threshold_ms := l.config_src.hold_threshold button_name l.global_default_threshold_ms }
  else
    { has_pressed_action := false
      has_held_action := false
      threshold_ms := l.global_default_threshold_ms }

/-- `HoldIntentLogic::handle_idle_to_evaluating`. -/
def handle_idle_to_evaluating (l : HoldIntentLogic) (sm : ButtonStateMachine ButtonState)
    (input : ButtonInput) (config : ButtonConfig) (now : Nat) :
    ButtonStateMachine ButtonState × StateTransition ButtonEvent :=
  let sm := sm.transition_to ButtonState.EVALUATING
  let sm := sm.record_signal now
  if config.has_pressed_action ∧ ¬config.has_held_action then
    (sm.mark_action_fired,
      StateTransition.EmitEvents [⟨input.button_name, ButtonEventType.PRESSED⟩])
  else
    (sm, StateTransition.Continue)

/-- `HoldIntentLogic::handle_evaluating_with_signal`: on a repeated asserted
signal of a PRESSED+HELD button, if at least two signals were recorded and
no action fired yet, emit HELD (without changing the state). -/
def handle_evaluating_with_signal (l : HoldIntentLogic) (sm : ButtonStateMachine ButtonState)
    (input : ButtonInput) (config : ButtonConfig) (now : Nat) :
    ButtonStateMachine ButtonState × StateTransition ButtonEvent :=
  let sm := sm.record_signal now
  if 2 ≤ sm.signal_count ∧ ¬sm.action_fired ∧ config.has_held_action ∧
      config.has_pressed_action then
    (sm.mark_action_fired,
      StateTransition.EmitEvents [⟨input.button_name, ButtonEventType.HELD⟩])
  else
    (sm, StateTransition.Continue)

/-- `HoldIntentLogic::process_input`
(`impl StateMachineLogic for HoldIntentLogic`), the classifier dispatching
on `(state_machine.state(), input.is_pressed)`. -/
def process_input (l : HoldIntentLogic) (sm : ButtonStateMachine ButtonState)
    (input : ButtonInput) (now : Nat) :
    ButtonStateMachine ButtonState × StateTransition ButtonEvent :=
  let config := l.get_button_config input.button_name
  match sm.state, input.is_pressed with
  | ButtonState.IDLE, true =>
      l.handle_idle_to_evaluating sm input config now
  | ButtonState.EVALUATING, true =>
      let sm :=
        match sm.time_since_first_signal now with
        | some time_since_first =>
            if config.threshold_ms ≤ time_since_first then
              sm.transition_to ButtonState.HELD
            else sm
        | none => sm
      l.handle_evaluating_with_signal sm input config now
  | ButtonState.EVALUATING, false =>
      match sm.time_since_first_signal now with
      | some time_since_first =>
          let time_elapsed_ms := time_since_first
          let markedEvents : ButtonStateMachine ButtonState × List ButtonEvent :=
            if config.has_pressed_action ∧ config.has_held_action then
              let quick_release_threshold := l.get_quick_release_threshold_ms input.button_name
              if time_elapsed_ms < quick_release_threshold ∧ ¬sm.action_fired then
                (sm.mark_action_fired, [⟨input.button_name, ButtonEventType.PRESSED⟩])
              else (sm, [])
            else if config.has_held_action ∧ ¬config.has_pressed_action then
              (sm, [])
            else if config.has_pressed_action ∧ ¬config.has_held_action then
              if ¬sm.action_fired then
                (sm.mark_action_fired, [⟨input.button_name, ButtonEventType.PRESSED⟩])
              else (sm, [])
            else (sm, [])
          let sm := markedEvents.1
          let events_to_emit := markedEvents.2
          if ¬l.config_src.lock_ok then
            if events_to_emit.isEmpty then (sm, StateTransition.Reset)
            else (sm, StateTransition.EmitEvents events_to_emit)
          else if l.config_src.has_releasing input.button_name then
            (sm.transition_to ButtonState.RELEASING,
              StateTransition.EmitEvents
                (events_to_emit ++ [⟨input.button_name, ButtonEventType.RELEASING⟩]))
          else if ¬events_to_emit.isEmpty then
            (sm, StateTransition.EmitEvents events_to_emit)
          else (sm, StateTransition.Reset)
      | none => (sm, StateTransition.Reset)
  | ButtonState.HELD, false =>
      if ¬l.config_src.lock_ok then (sm, StateTransition.Reset)
      else if l.config_src.has_releasing input.button_name then
        (sm.transition_to ButtonState.RELEASING,
          StateTransition.EmitEvents [⟨input.button_name, ButtonEventType.RELEASING⟩])
      else (sm, StateTransition.Reset)
  | ButtonState.RELEASING, false =>
      (sm, StateTransition.Reset)
  | ButtonState.RELEASING, true =>
      let sm := sm.transition_to ButtonState.EVALUATING
      let sm := sm.record_signal now
      (sm, StateTransition.Continue)
  | ButtonState.HELD, true =>
      (sm, StateTransition.Continue)
  | ButtonState.IDLE, false =>
      (sm, StateTransition.Continue)

/-- `HoldIntentLogic::initial_state`. -/
def initial_state (l : HoldIntentLogic) : ButtonState :=
  ButtonState.IDLE

end HoldIntentLogic

/-- Modelled from the spec: the dispatcher's periodic timeout evaluation for
one button (`HoldIntentParser::process_button_timeouts` is called from
`src/hold_intent_input_action_manager.rs` but its body is absent from the
sources).  Spec, §4.2: "for any button currently in `EVALUATING` whose
`time_since_first_signal(now) ≥ threshold_ms` and `action_fired == false`,
if the button has a HELD action configured, emit HELD, mark action fired,
and transition to `HELD`." -/
def process_button_timeout (l : HoldIntentLogic) (sm : ButtonStateMachine ButtonState)
    (button_name : PhysicalButtonName) (now : Nat) :
    ButtonStateMachine ButtonState × List ButtonEvent :=
  let config := l.get_button_config button_name
  if sm.state = ButtonState.EVALUATING then
    match sm.time_since_first_signal now with
    | some time_since_first =>
        if config.threshold_ms ≤ time_since_first ∧ ¬sm.action_fired then
          if config.has_held_action then
            (sm.mark_action_fired.transition_to ButtonState.HELD,
              [⟨button_name, ButtonEventType.HELD⟩])
          else (sm, [])
        else (sm, [])
    | none => (sm, [])
  else (sm, [])

/-- Modelled from the spec: how the dispatcher applies a `StateTransition`
returned by the logic (the dispatcher that owns the `ButtonStateMachine`
map is absent from the sources).  Spec, §4.3: on a `Reset` result the state
machine is reset to IDLE, and "On RELEASING event emission, immediately
reset the originating state machine to IDLE". -/
def apply_transition (sm : ButtonStateMachine ButtonState)
    (t : StateTransition ButtonEvent) : ButtonStateMachine ButtonState × List ButtonEvent :=
  match t with
  | StateTransition.Continue => (sm, [])
  | StateTransition.Reset => (sm.reset ButtonState.IDLE, [])
  | StateTransition.EmitEvents events =>
      (if events.any (fun e => e.event_type = ButtonEventType.RELEASING) then
        sm.reset ButtonState.IDLE
      else sm, events)

/-- One call into the core for a single button: either a signal change fed
through `process_input` (with the dispatcher applying the returned
transition) or a timeout-sweep evaluation. -/
inductive DispatchStep where
  | signal (input : ButtonInput) (now : Nat)
  | timeout (button : PhysicalButtonName) (now : Nat)

/-- Run one `DispatchStep`; the third component records whether the
dispatcher reset the state machine during this step. -/
def dispatch_step (l : HoldIntentLogic) (sm : ButtonStateMachine ButtonState) :
    DispatchStep → ButtonStateMachine ButtonState × List ButtonEvent × Bool
  | DispatchStep.signal input now =>
      let r := l.process_input sm input now
      let didReset :=
        match r.2 with
        | StateTransition.Reset => true
        | StateTransition.EmitEvents events =>
            events.any (fun e => e.event_type = ButtonEventType.RELEASING)
        | StateTransition.Continue => false
      let a := apply_transition r.1 r.2
      (a.1, a.2, didReset)
  | DispatchStep.timeout button now =>
      let r := process_button_timeout l sm button now
      (r.1, r.2, false)

/-- All events emitted along a sequence of dispatch steps up to and
including the first step on which the state machine is reset. -/
def run_events_until_reset (l : HoldIntentLogic) (sm : ButtonStateMachine ButtonState) :
    List DispatchStep → List ButtonEvent
  | [] => []
  | s :: rest =>
      let r := dispatch_step l sm s
      if r.2.2 then r.2.1 else r.2.1 ++ run_events_until_reset l r.1 rest

/-- No PRESSED and no HELD event occurs in the list. -/
def no_action_event (events : List ButtonEvent) : Prop :=
  ∀ e ∈ events,
    e.event_type ≠ ButtonEventType.PRESSED ∧ e.event_type ≠ ButtonEventType.HELD

instance (events : List ButtonEvent) : Decidable (no_action_event events) := by
  unfold no_action_event; infer_instance

/-- Number of PRESSED events in a list. -/
def count_pressed (events : List ButtonEvent) : Nat :=
  (events.filter (fun e => e.event_type = ButtonEventType.PRESSED)).length

/-- Number of HELD events in a list. -/
def count_held (events : List ButtonEvent) : Nat :=
  (events.filter (fun e => e.event_type = ButtonEventType.HELD)).length

/-- The invariant of the generic state machine claimed in the spec:
`first_signal_time.is_some() ⇔ signal_count > 0`. -/
def sm_inv {S : Type} (sm : ButtonStateMachine S) : Prop :=
  sm.first_signal_time.isSome ↔ 0 < sm.signal_count

instance {S : Type} (sm : ButtonStateMachine S) : Decidable (sm_inv sm) := by
  unfold sm_inv; infer_instance

/-- Concrete configuration: every button has PRESSED and HELD actions, no
RELEASING action, resolved hold threshold 1000ms, healthy lock. -/
def cfgPressedHeld : ConfigEnv :=
  { lock_ok := true
    has_pressed := fun _ => true
    has_held := fun _ => true
    has_releasing := fun _ => false
    hold_threshold := fun _ _ => 1000 }

/-- Concrete configuration: PRESSED, HELD and RELEASING actions on every
button, resolved hold threshold 1000ms, healthy lock. -/
def cfgPressedHeldRel : ConfigEnv :=
  { cfgPressedHeld with has_releasing := fun _ => true }

/-- Concrete configuration: held-only buttons (HELD action, no PRESSED, no
RELEASING), resolved hold threshold 500ms, healthy lock. -/
def cfgHeldOnly : ConfigEnv :=
  { lock_ok := true
    has_pressed := fun _ => false
    has_held := fun _ => true
    has_releasing := fun _ => false
    hold_threshold := fun _ _ => 500 }

/-- Concrete configuration: held-only buttons that also have a RELEASING
action, resolved hold threshold 1000ms, healthy lock. -/
def cfgHeldOnlyRel : ConfigEnv :=
  { lock_ok := true
    has_pressed := fun _ => false
    has_held := fun _ => true
    has_releasing := fun _ => true
    hold_threshold := fun _ _ => 1000 }

/-- Concrete configuration whose mutex lock fails on every call (poisoned). -/
def cfgPoisoned : ConfigEnv :=
  { lock_ok := false
    has_pressed := fun _ => true
    has_held := fun _ => true
    has_releasing := fun _ => true
    hold_threshold := fun _ _ => 1000 }

/-- A `HoldIntentLogic` over the given configuration with a 1000ms global
default threshold. -/
def mkLogic (env : ConfigEnv) : HoldIntentLogic :=
  { global_default_threshold_ms := 1000, config_src := env }

end PedalCore

namespace PedalParser

open PedalCore (PhysicalButtonName)

/-- Button states of the monolithic parser, from `src/hold_intent_parser.rs`
(its own `enum ButtonState`, only two states). -/
inductive ButtonState where
  | IDLE
  | EVALUATING
deriving DecidableEq, Repr

/-- Event types of the monolithic parser, from `src/hold_intent_parser.rs`
(its own `enum ButtonEventType`). -/
inductive ButtonEventType where
  | PRESSED
  | HELD
  | RELEASED
deriving DecidableEq, Repr

/-- Emitted event, from `src/hold_intent_parser.rs` (`struct ButtonEvent`). -/
structure ButtonEvent where
  button_name : PhysicalButtonName
  event_type : ButtonEventType
deriving DecidableEq, Repr

/-- Per-button tracking data, from `src/hold_intent_parser.rs`
(`struct ButtonTracker`). -/
structure ButtonTracker where
  state : ButtonState
  first_signal_time : Option Nat
  last_signal_time : Option Nat
  signal_count : Nat
  action_fired : Bool
deriving DecidableEq, Repr

/-- `ButtonTracker::new`. -/
def ButtonTracker.new : ButtonTracker :=
  { state := ButtonState.IDLE
    first_signal_time := none
    last_signal_time := none
    signal_count := 0
    action_fired := false }

/-- The monolithic parser, from `src/hold_intent_parser.rs`
(`struct HoldIntentParser`); the `HashMap` over the three buttons is a
total function. -/
structure HoldIntentParser where
  buttons : PhysicalButtonName → ButtonTracker
  evaluation_window_ms : Nat

/-- `HoldIntentParser::new`: all three trackers fresh, 800ms window. -/
def HoldIntentParser.new : HoldIntentParser :=
  { buttons := fun _ => ButtonTracker.new
    evaluation_window_ms := 800 }

/-- Body of the per-button loop of `HoldIntentParser::parse_hid_data`
(the `match (tracker.state, is_pressed)` block), returning the updated
tracker and the events pushed for this button. -/
def process_tracker (evaluation_window_ms : Nat) (tracker : ButtonTracker)
    (button_name : PhysicalButtonName) (is_pressed : Bool) (now : Nat)
    (has_held_action has_pressed_action : PhysicalButtonName → Bool)
    (get_hold_threshold : PhysicalButtonName → Nat) :
    ButtonTracker × List ButtonEvent :=
  match tracker.state, is_pressed with
  | ButtonState.IDLE, true =>
      let tracker : ButtonTracker :=
        { state := ButtonState.EVALUATING
          first_signal_time := some now
          last_signal_time := some now
          signal_count := 1
          action_fired := false }
      if has_pressed_action button_name ∧ ¬has_held_action button_name then
        ({ tracker with action_fired := true },
          [⟨button_name, ButtonEventType.PRESSED⟩])
      else (tracker, [])
  | ButtonState.EVALUATING, true =>
      let tracker :=
        { tracker with signal_count := tracker.signal_count + 1, last_signal_time := some now }
      if 2 ≤ tracker.signal_count ∧ ¬tracker.action_fired ∧
          has_held_action button_name ∧ has_pressed_action button_name then
        ({ tracker with action_fired := true }, [⟨button_name, ButtonEventType.HELD⟩])
      else (tracker, [])
  | ButtonState.EVALUATING, false =>
      match tracker.first_signal_time with
      | some first_signal =>
          let time_since_first := now - first_signal
          let has_pressed := has_pressed_action button_name
          let has_held := has_held_action button_name
          let threshold_ms := get_hold_threshold button_name
          let quick_release_threshold := 300
          let step1 : ButtonTracker × List ButtonEvent :=
            if ¬tracker.action_fired ∧ has_pressed ∧ has_held ∧
                time_since_first < quick_release_threshold ∧
                time_since_first < threshold_ms then
              ({ tracker with action_fired := true },
                [⟨button_name, ButtonEventType.PRESSED⟩])
            else (tracker, [])
          let tracker := step1.1
          let step2 : ButtonTracker × List ButtonEvent :=
            if ¬tracker.action_fired ∧ has_held ∧ threshold_ms ≤ time_since_first then
              ({ tracker with action_fired := true },
                [⟨button_name, ButtonEventType.HELD⟩])
            else (tracker, [])
          let tracker := step2.1
          let effective_window :=
            if has_held then Nat.max evaluation_window_ms (threshold_ms + 100)
            else evaluation_window_ms
          if effective_window ≤ time_since_first then
            let final_events :=
              if ¬tracker.action_fired ∧ has_pressed ∧ has_held then
                [⟨button_name, ButtonEventType.PRESSED⟩]
              else ([] : List ButtonEvent)
            (ButtonTracker.new,
              step1.2 ++ step2.2 ++ final_events ++
                [⟨button_name, ButtonEventType.RELEASED⟩])
          else (tracker, step1.2 ++ step2.2)
      | none => (tracker, [])
  | ButtonState.IDLE, false =>
      (tracker, [])

/-- `HoldIntentParser::parse_hid_data`: the parse entry point.  A frame is
rejected up front (returning the empty event list and leaving every tracker
untouched) when it is shorter than 8 bytes or its header bytes are not
`data[0] == 1` and `data[2] == 3`; otherwise bytes 4, 5, 6 are the levels
of the three buttons, processed in enumeration order. -/
def HoldIntentParser.parse_hid_data (p : HoldIntentParser) (data : List Nat) (now : Nat)
    (has_held_action has_pressed_action : PhysicalButtonName → Bool)
    (get_hold_threshold : PhysicalButtonName → Nat) :
    HoldIntentParser × List ButtonEvent :=
  if data.length < 8 ∨ data.getD 0 0 ≠ 1 ∨ data.getD 2 0 ≠ 3 then (p, [])
  else
    let button_data : List (PhysicalButtonName × Bool) :=
      [(PhysicalButtonName.Button1, data.getD 4 0 ≠ 0),
        (PhysicalButtonName.Button2, data.getD 5 0 ≠ 0),
        (PhysicalButtonName.Button3, data.getD 6 0 ≠ 0)]
    button_data.foldl
      (fun acc bd =>
        let r := process_tracker acc.1.evaluation_window_ms (acc.1.buttons bd.1) bd.1 bd.2 now
          has_held_action has_pressed_action get_hold_threshold
        ({ acc.1 with buttons := fun b => if b = bd.1 then r.1 else acc.1.buttons b },
          acc.2 ++ r.2))
      (p, [])

end PedalParser

namespace PedalCore

/-- C4: for every button, the quick-release threshold computed by
`get_quick_release_threshold_ms` equals `max(200, threshold_ms * 60 / 100)`
— 60% of the button's resolved hold threshold, floored at 200ms — whenever
the configuration lock succeeds. -/
theorem c4_quick_release_formula (l : HoldIntentLogic) (b : PhysicalButtonName)
    (hlock : l.config_src.lock_ok = true) :
    l.get_quick_release_threshold_ms b =
      Nat.max 200
        ((l.config_src.hold_threshold b l.global_default_threshold_ms * 60) / 100) := by
  simp [HoldIntentLogic.get_quick_release_threshold_ms, hlock, Nat.max_comm]

/-- Witness for C4 at the concrete 1000ms pressed+held configuration. -/
theorem c4_quick_release_formula_witness :
    (mkLogic cfgPressedHeld).config_src.lock_ok = true ∧
    (mkLogic cfgPressedHeld).get_quick_release_threshold_ms PhysicalButtonName.Button1 =
      Nat.max 200
        (((mkLogic cfgPressedHeld).config_src.hold_threshold PhysicalButtonName.Button1
          (mkLogic cfgPressedHeld).global_default_threshold_ms * 60) / 100) :=
  ⟨rfl, c4_quick_release_formula (mkLogic cfgPressedHeld) PhysicalButtonName.Button1 rfl⟩

/-- C9: the invariant `first_signal_time.is_some() ⇔ signal_count > 0`
holds after `new` and is preserved by every mutating operation of
`ButtonStateMachine` (`transition_to`, `record_signal`, `mark_action_fired`,
`reset`; `state`, `signal_count`, `action_fired` and
`time_since_first_signal` take `&self` and mutate nothing). -/
theorem c9_invariant :
    (∀ (s : ButtonState), sm_inv (ButtonStateMachine.new s)) ∧
    ∀ (sm : ButtonStateMachine ButtonState), sm_inv sm →
      (∀ s, sm_inv (sm.transition_to s)) ∧
      (∀ t, sm_inv (sm.record_signal t)) ∧
      sm_inv sm.mark_action_fired ∧
      (∀ s, sm_inv (sm.reset s)) := by
  constructor
  · intro s
    simp [sm_inv, ButtonStateMachine.new]
  · intro sm h
    refine ⟨fun s => ?_, fun t => ?_, ?_, fun s => ?_⟩
    · simpa [sm_inv, ButtonStateMachine.transition_to] using h
    · obtain ⟨st, first, last, cnt, fired⟩ := sm
      cases first <;>
        simp [sm_inv, ButtonStateMachine.record_signal]
    · simpa [sm_inv, ButtonStateMachine.mark_action_fired] using h
    · simp [sm_inv, ButtonStateMachine.reset]

/-- Witness for C9 at a concrete machine with one recorded signal. -/
theorem c9_invariant_witness :
    sm_inv (ButtonStateMachine.new ButtonState.IDLE) ∧
    sm_inv ((ButtonStateMachine.new ButtonState.IDLE).record_signal 5) :=
  ⟨c9_invariant.1 ButtonState.IDLE,
    ((c9_invariant.2 (ButtonStateMachine.new ButtonState.IDLE)
      (c9_invariant.1 ButtonState.IDLE)).2.1 5)⟩

/-- C10: `process_input` in state RELEASING on an asserted signal
transitions to EVALUATING and records the signal while emitting no event,
leaving `first_signal_time` and `action_fired` unchanged. -/
theorem c10_releasing_reassert_frame (l : HoldIntentLogic)
    (sm : ButtonStateMachine ButtonState) (b : PhysicalButtonName) (now t0 : Nat)
    (hstate : sm.current_state = ButtonState.RELEASING)
    (hfirst : sm.first_signal_time = some t0) :
    (l.process_input sm ⟨b, true⟩ now).2 = StateTransition.Continue ∧
    (l.process_input sm ⟨b, true⟩ now).1.current_state = ButtonState.EVALUATING ∧
    (l.process_input sm ⟨b, true⟩ now).1.first_signal_time = some t0 ∧
    (l.process_input sm ⟨b, true⟩ now).1.action_fired = sm.action_fired ∧
    (l.process_input sm ⟨b, true⟩ now).1.signal_count = sm.signal_count + 1 ∧
    (l.process_input sm ⟨b, true⟩ now).1.last_signal_time = some now := by
  obtain ⟨st, first, last, cnt, fired⟩ := sm
  simp only [ButtonStateMachine.current_state] at hstate
  simp only [ButtonStateMachine.first_signal_time] at hfirst
  subst hstate
  subst hfirst
  simp [HoldIntentLogic.process_input, ButtonStateMachine.state,
    ButtonStateMachine.transition_to, ButtonStateMachine.record_signal]

/-- Witness for C10 at a concrete RELEASING machine. -/
theorem c10_releasing_reassert_frame_witness :
    ((mkLogic cfgPressedHeldRel).process_input
        ⟨ButtonState.RELEASING, some 0, some 700, 1, true⟩
        ⟨PhysicalButtonName.Button1, true⟩ 800).2 = StateTransition.Continue ∧
    ((mkLogic cfgPressedHeldRel).process_input
        ⟨ButtonState.RELEASING, some 0, some 700, 1, true⟩
        ⟨PhysicalButtonName.Button1, true⟩ 800).1.current_state = ButtonState.EVALUATING ∧
    ((mkLogic cfgPressedHeldRel).process_input
        ⟨ButtonState.RELEASING, some 0, some 700, 1, true⟩
        ⟨PhysicalButtonName.Button1, true⟩ 800).1.first_signal_time = some 0 ∧
    ((mkLogic cfgPressedHeldRel).process_input
        ⟨ButtonState.RELEASING, some 0, some 700, 1, true⟩
        ⟨PhysicalButtonName.Button1, true⟩ 800).1.action_fired =
      (⟨ButtonState.RELEASING, some 0, some 700, 1, true⟩ :
        ButtonStateMachine ButtonState).action_fired ∧
    ((mkLogic cfgPressedHeldRel).process_input
        ⟨ButtonState.RELEASING, some 0, some 700, 1, true⟩
        ⟨PhysicalButtonName.Button1, true⟩ 800).1.signal_count =
      (⟨ButtonState.RELEASING, some 0, some 700, 1, true⟩ :
        ButtonStateMachine ButtonState).signal_count + 1 ∧
    ((mkLogic cfgPressedHeldRel).process_input
        ⟨ButtonState.RELEASING, some 0, some 700, 1, true⟩
        ⟨PhysicalButtonName.Button1, true⟩ 800).1.last_signal_time = some 800 :=
  c10_releasing_reassert_frame (mkLogic cfgPressedHeldRel)
    ⟨ButtonState.RELEASING, some 0, some 700, 1, true⟩
    PhysicalButtonName.Button1 800 0 rfl rfl

/-- C5: a pressed+held button in EVALUATING with no action fired, released
at elapsed time strictly below the quick-release threshold, emits exactly
one PRESSED event and no HELD event. -/
theorem c5_quick_release_pressed (l : HoldIntentLogic)
    (sm : ButtonStateMachine ButtonState) (b : PhysicalButtonName) (now t0 : Nat)
    (hlock : l.config_src.lock_ok = true)
    (hp : l.config_src.has_pressed b = true)
    (hh : l.config_src.has_held b = true)
    (hstate : sm.current_state = ButtonState.EVALUATING)
    (hfired : sm.action_fired = false)
    (hfirst : sm.first_signal_time = some t0)
    (hqr : now - t0 < l.get_quick_release_threshold_ms b) :
    count_pressed (l.process_input sm ⟨b, false⟩ now).2.events_of = 1 ∧
    count_held (l.process_input sm ⟨b, false⟩ now).2.events_of = 0 := by
  obtain ⟨st, first, last, cnt, fired⟩ := sm
  simp only [ButtonStateMachine.current_state] at hstate
  simp only [ButtonStateMachine.first_signal_time] at hfirst
  simp only [ButtonStateMachine.action_fired] at hfired
  subst hstate
  subst hfirst
  subst hfired
  by_cases hr : l.config_src.has_releasing b <;>
    simp [HoldIntentLogic.process_input, ButtonStateMachine.state,
      ButtonStateMachine.time_since_first_signal, HoldIntentLogic.get_button_config,
      hlock, hp, hh, hr, hqr, ButtonStateMachine.mark_action_fired,
      ButtonStateMachine.action_fired, ButtonStateMachine.transition_to,
      StateTransition.events_of, count_pressed, count_held, List.filter]

/-- Witness for C5: pressed+held, threshold 1000ms, release at 150ms. -/
theorem c5_quick_release_pressed_witness :
    count_pressed ((mkLogic cfgPressedHeld).process_input
      ⟨ButtonState.EVALUATING, some 0, some 0, 1, false⟩
      ⟨PhysicalButtonName.Button1, false⟩ 150).2.events_of = 1 ∧
    count_held ((mkLogic cfgPressedHeld).process_input
      ⟨ButtonState.EVALUATING, some 0, some 0, 1, false⟩
      ⟨PhysicalButtonName.Button1, false⟩ 150).2.events_of = 0 :=
  c5_quick_release_pressed (mkLogic cfgPressedHeld)
    ⟨ButtonState.EVALUATING, some 0, some 0, 1, false⟩
    PhysicalButtonName.Button1 150 0 rfl rfl rfl rfl rfl rfl (by decide)

/-- C6: a pressed+held button in EVALUATING with no action fired, released
in the dead zone (at or above the quick-release threshold, strictly below
the hold threshold), emits no PRESSED and no HELD event; the machine
transitions to RELEASING when a RELEASING action is configured, else the
logic returns `Reset` and the dispatcher resets it to IDLE. -/
theorem c6_dead_zone (l : HoldIntentLogic)
    (sm : ButtonStateMachine ButtonState) (b : PhysicalButtonName) (now t0 : Nat)
    (hlock : l.config_src.lock_ok = true)
    (hp : l.config_src.has_pressed b = true)
    (hh : l.config_src.has_held b = true)
    (hstate : sm.current_state = ButtonState.EVALUATING)
    (hfired : sm.action_fired = false)
    (hfirst : sm.first_signal_time = some t0)
    (hqr : l.get_quick_release_threshold_ms b ≤ now - t0)
    (hthr : now - t0 < l.config_src.hold_threshold b l.global_default_threshold_ms) :
    count_pressed (l.process_input sm ⟨b, false⟩ now).2.events_of = 0 ∧
    count_held (l.process_input sm ⟨b, false⟩ now).2.events_of = 0 ∧
    (l.config_src.has_releasing b = true →
      (l.process_input sm ⟨b, false⟩ now).1.current_state = ButtonState.RELEASING) ∧
    (l.config_src.has_releasing b = false →
      (l.process_input sm ⟨b, false⟩ now).2 = StateTransition.Reset ∧
      (apply_transition (l.process_input sm ⟨b, false⟩ now).1
        (l.process_input sm ⟨b, false⟩ now).2).1.current_state = ButtonState.IDLE) := by
  obtain ⟨st, first, last, cnt, fired⟩ := sm
  simp only [ButtonStateMachine.current_state] at hstate
  simp only [ButtonStateMachine.first_signal_time] at hfirst
  simp only [ButtonStateMachine.action_fired] at hfired
  subst hstate
  subst hfirst
  subst hfired
  have hqr' : ¬(now - t0 < l.get_quick_release_threshold_ms b) := Nat.not_lt.mpr hqr
  by_cases hr : l.config_src.has_releasing b <;>
    simp [HoldIntentLogic.process_input, ButtonStateMachine.state,
      ButtonStateMachine.time_since_first_signal, HoldIntentLogic.get_button_config,
      hlock, hp, hh, hr, hqr', ButtonStateMachine.transition_to,
      ButtonStateMachine.reset, apply_transition,
      StateTransition.events_of, count_pressed, count_held, List.filter]

/-- Witness for C6: pressed+held, threshold 1000ms (quick-release 600ms),
release at 700ms, no RELEASING action configured. -/
theorem c6_dead_zone_witness :
    count_pressed ((mkLogic cfgPressedHeld).process_input
      ⟨ButtonState.EVALUATING, some 0, some 0, 1, false⟩
      ⟨PhysicalButtonName.Button1, false⟩ 700).2.events_of = 0 ∧
    count_held ((mkLogic cfgPressedHeld).process_input
      ⟨ButtonState.EVALUATING, some 0, some 0, 1, false⟩
      ⟨PhysicalButtonName.Button1, false⟩ 700).2.events_of = 0 ∧
    (cfgPressedHeld.has_releasing PhysicalButtonName.Button1 = true →
      ((mkLogic cfgPressedHeld).process_input
        ⟨ButtonState.EVALUATING, some 0, some 0, 1, false⟩
        ⟨PhysicalButtonName.Button1, false⟩ 700).1.current_state = ButtonState.RELEASING) ∧
    (cfgPressedHeld.has_releasing PhysicalButtonName.Button1 = false →
      ((mkLogic cfgPressedHeld).process_input
        ⟨ButtonState.EVALUATING, some 0, some 0, 1, false⟩
        ⟨PhysicalButtonName.Button1, false⟩ 700).2 = StateTransition.Reset ∧
      (apply_transition ((mkLogic cfgPressedHeld).process_input
          ⟨ButtonState.EVALUATING, some 0, some 0, 1, false⟩
          ⟨PhysicalButtonName.Button1, false⟩ 700).1
        ((mkLogic cfgPressedHeld).process_input
          ⟨ButtonState.EVALUATING, some 0, some 0, 1, false⟩
          ⟨PhysicalButtonName.Button1, false⟩ 700).2).1.current_state = ButtonState.IDLE) :=
  c6_dead_zone (mkLogic cfgPressedHeld)
    ⟨ButtonState.EVALUATING, some 0, some 0, 1, false⟩
    PhysicalButtonName.Button1 700 0 rfl rfl rfl rfl rfl rfl (by decide) (by decide)

/-- C7, counterexample: a held-only button that also has a RELEASING action
configured, de-asserted at 100ms with a 1000ms threshold, emits a RELEASING
event — the press episode does not emit zero events. -/
theorem c7_counterexample :
    cfgHeldOnlyRel.has_held PhysicalButtonName.Button1 = true ∧
    cfgHeldOnlyRel.has_pressed PhysicalButtonName.Button1 = false ∧
    ((100 : Nat) - 0 <
      cfgHeldOnlyRel.hold_threshold PhysicalButtonName.Button1 1000) ∧
    ((mkLogic cfgHeldOnlyRel).process_input
      ⟨ButtonState.EVALUATING, some 0, some 0, 1, false⟩
      ⟨PhysicalButtonName.Button1, false⟩ 100).2.events_of =
      [⟨PhysicalButtonName.Button1, ButtonEventType.RELEASING⟩] := by
  decide

/-- C7 as amended: a held-only button de-asserted strictly before the hold
threshold emits no PRESSED and no HELD event; a RELEASING event is emitted
(and the machine moved to RELEASING) exactly when a RELEASING action is
configured, else the logic returns `Reset` with no event at all. -/
theorem c7_held_only_early_release (l : HoldIntentLogic)
    (sm : ButtonStateMachine ButtonState) (b : PhysicalButtonName) (now t0 : Nat)
    (hlock : l.config_src.lock_ok = true)
    (hh : l.config_src.has_held b = true)
    (hp : l.config_src.has_pressed b = false)
    (hstate : sm.current_state = ButtonState.EVALUATING)
    (hfirst : sm.first_signal_time = some t0)
    (hthr : now - t0 < l.config_src.hold_threshold b l.global_default_threshold_ms) :
    count_pressed (l.process_input sm ⟨b, false⟩ now).2.events_of = 0 ∧
    count_held (l.process_input sm ⟨b, false⟩ now).2.events_of = 0 ∧
    (l.config_src.has_releasing b = true →
      (l.process_input sm ⟨b, false⟩ now).2 =
        StateTransition.EmitEvents [⟨b, ButtonEventType.RELEASING⟩] ∧
      (l.process_input sm ⟨b, false⟩ now).1.current_state = ButtonState.RELEASING) ∧
    (l.config_src.has_releasing b = false →
      (l.process_input sm ⟨b, false⟩ now).2 = StateTransition.Reset) := by
  obtain ⟨st, first, last, cnt, fired⟩ := sm
  simp only [ButtonStateMachine.current_state] at hstate
  simp only [ButtonStateMachine.first_signal_time] at hfirst
  subst hstate
  subst hfirst
  by_cases hr : l.config_src.has_releasing b <;>
    simp [HoldIntentLogic.process_input, ButtonStateMachine.state,
      ButtonStateMachine.time_since_first_signal, HoldIntentLogic.get_button_config,
      hlock, hp, hh, hr, ButtonStateMachine.transition_to,
      StateTransition.events_of, count_pressed, count_held, List.filter]

/-- Witness for the amended C7: held-only with RELEASING configured,
released at 100ms, threshold 1000ms. -/
theorem c7_held_only_early_release_witness :
    count_pressed ((mkLogic cfgHeldOnlyRel).process_input
      ⟨ButtonState.EVALUATING, some 0, some 0, 1, false⟩
      ⟨PhysicalButtonName.Button1, false⟩ 100).2.events_of = 0 ∧
    count_held ((mkLogic cfgHeldOnlyRel).process_input
      ⟨ButtonState.EVALUATING, some 0, some 0, 1, false⟩
      ⟨PhysicalButtonName.Button1, false⟩ 100).2.events_of = 0 ∧
    (cfgHeldOnlyRel.has_releasing PhysicalButtonName.Button1 = true →
      ((mkLogic cfgHeldOnlyRel).process_input
        ⟨ButtonState.EVALUATING, some 0, some 0, 1, false⟩
        ⟨PhysicalButtonName.Button1, false⟩ 100).2 =
        StateTransition.EmitEvents
          [⟨PhysicalButtonName.Button1, ButtonEventType.RELEASING⟩] ∧
      ((mkLogic cfgHeldOnlyRel).process_input
        ⟨ButtonState.EVALUATING, some 0, some 0, 1, false⟩
        ⟨PhysicalButtonName.Button1, false⟩ 100).1.current_state = ButtonState.RELEASING) ∧
    (cfgHeldOnlyRel.has_releasing PhysicalButtonName.Button1 = false →
      ((mkLogic cfgHeldOnlyRel).process_input
        ⟨ButtonState.EVALUATING, some 0, some 0, 1, false⟩
        ⟨PhysicalButtonName.Button1, false⟩ 100).2 = StateTransition.Reset) :=
  c7_held_only_early_release (mkLogic cfgHeldOnlyRel)
    ⟨ButtonState.EVALUATING, some 0, some 0, 1, false⟩
    PhysicalButtonName.Button1 100 0 rfl rfl rfl rfl rfl (by decide)

/-- C2, counterexample: with a poisoned configuration lock, `process_input`
on state IDLE with an asserted signal does not reset the state machine: it
returns `Continue` with the machine moved to EVALUATING and one recorded
signal. -/
theorem c2_counterexample :
    (mkLogic cfgPoisoned).config_src.lock_ok = false ∧
    ((mkLogic cfgPoisoned).process_input (ButtonStateMachine.new ButtonState.IDLE)
      ⟨PhysicalButtonName.Button1, true⟩ 0).2 = StateTransition.Continue ∧
    ((mkLogic cfgPoisoned).process_input (ButtonStateMachine.new ButtonState.IDLE)
      ⟨PhysicalButtonName.Button1, true⟩ 0).1.current_state = ButtonState.EVALUATING ∧
    ((mkLogic cfgPoisoned).process_input (ButtonStateMachine.new ButtonState.IDLE)
      ⟨PhysicalButtonName.Button1, true⟩ 0).1.signal_count = 1 := by
  decide

/-- C2 as amended: when every configuration lock of a `process_input` call
fails, the call emits no event and preserves the state-machine invariant
(it either returns `Reset` or continues with the no-actions fallback
configuration, possibly performing bookkeeping transitions such as
IDLE→EVALUATING). -/
theorem c2_lock_failure_no_events (l : HoldIntentLogic)
    (sm : ButtonStateMachine ButtonState) (input : ButtonInput) (now : Nat)
    (hlock : l.config_src.lock_ok = false) :
    (l.process_input sm input now).2.events_of = [] ∧
    (sm_inv sm → sm_inv (l.process_input sm input now).1) := by
  obtain ⟨st, first, last, cnt, fired⟩ := sm
  obtain ⟨b, ip⟩ := input
  cases st <;> cases ip <;> cases first <;>
    simp [HoldIntentLogic.process_input, ButtonStateMachine.state,
      HoldIntentLogic.get_button_config, hlock,
      HoldIntentLogic.handle_idle_to_evaluating,
      HoldIntentLogic.handle_evaluating_with_signal,
      ButtonStateMachine.record_signal, ButtonStateMachine.transition_to,
      ButtonStateMachine.time_since_first_signal,
      StateTransition.events_of, sm_inv] <;>
    split_ifs <;>
    simp [StateTransition.events_of]

/-- Witness for the amended C2 at the poisoned configuration, state
EVALUATING, de-asserted signal. -/
theorem c2_lock_failure_no_events_witness :
    ((mkLogic cfgPoisoned).process_input
      ⟨ButtonState.EVALUATING, some 0, some 0, 1, false⟩
      ⟨PhysicalButtonName.Button1, false⟩ 300).2.events_of = [] ∧
    (sm_inv (⟨ButtonState.EVALUATING, some 0, some 0, 1, false⟩ :
        ButtonStateMachine ButtonState) →
      sm_inv ((mkLogic cfgPoisoned).process_input
        ⟨ButtonState.EVALUATING, some 0, some 0, 1, false⟩
        ⟨PhysicalButtonName.Button1, false⟩ 300).1) :=
  c2_lock_failure_no_events (mkLogic cfgPoisoned)
    ⟨ButtonState.EVALUATING, some 0, some 0, 1, false⟩
    ⟨PhysicalButtonName.Button1, false⟩ 300 rfl

end PedalCore

namespace PedalParser

open PedalCore (PhysicalButtonName)

/-- C3, counterexample: a malformed HID frame (here a single byte `0x00`)
passed to the parse entry point is silently absorbed: `parse_hid_data`
returns the empty event list and leaves the parser untouched, and its
return type offers no error channel at all. -/
theorem c3_counterexample :
    HoldIntentParser.new.parse_hid_data [0] 0
      (fun _ => true) (fun _ => true) (fun _ => 1000) =
      (HoldIntentParser.new, []) :=
  rfl

/-- C3 as amended: any frame shorter than 8 bytes or with a bad header
(`data[0] ≠ 1` or `data[2] ≠ 3`) is silently ignored by `parse_hid_data`:
the parser state is unchanged and the returned event list is empty; no
error is signalled. -/
theorem c3_malformed_frame_silent (p : HoldIntentParser) (data : List Nat) (now : Nat)
    (hh hp : PhysicalButtonName → Bool) (ght : PhysicalButtonName → Nat)
    (hbad : data.length < 8 ∨ data.getD 0 0 ≠ 1 ∨ data.getD 2 0 ≠ 3) :
    p.parse_hid_data data now hh hp ght = (p, []) := by
  unfold HoldIntentParser.parse_hid_data
  rw [if_pos hbad]

/-- Witness for the amended C3: an 8-byte frame with a wrong header byte. -/
theorem c3_malformed_frame_silent_witness :
    HoldIntentParser.new.parse_hid_data [1, 0, 0, 0, 1, 0, 0, 0] 0
      (fun _ => true) (fun _ => true) (fun _ => 1000) =
      (HoldIntentParser.new, []) :=
  c3_malformed_frame_silent HoldIntentParser.new [1, 0, 0, 0, 1, 0, 0, 0] 0
    (fun _ => true) (fun _ => true) (fun _ => 1000) (by decide)

end PedalParser

namespace PedalCore

/-- C1, counterexample: held-only button (HELD action, no PRESSED action,
threshold 500ms), first signal at t=0, still asserted at t=600 ≥ threshold.
When the threshold expiry is first observed by `process_input` on a
repeated asserted signal, no HELD event is emitted and `action_fired` stays
false (the machine silently moves to HELD); the timeout sweep at the same
elapsed time emits one HELD and marks `action_fired` — the two paths are
not equivalent and the signal path never emits the HELD event. -/
theorem c1_counterexample :
    cfgHeldOnly.has_held PhysicalButtonName.Button1 = true ∧
    cfgHeldOnly.has_pressed PhysicalButtonName.Button1 = false ∧
    cfgHeldOnly.hold_threshold PhysicalButtonName.Button1 1000 ≤ (600 : Nat) - 0 ∧
    ((mkLogic cfgHeldOnly).process_input
      ⟨ButtonState.EVALUATING, some 0, some 0, 1, false⟩
      ⟨PhysicalButtonName.Button1, true⟩ 600).2.events_of = [] ∧
    ((mkLogic cfgHeldOnly).process_input
      ⟨ButtonState.EVALUATING, some 0, some 0, 1, false⟩
      ⟨PhysicalButtonName.Button1, true⟩ 600).1.action_fired = false ∧
    (process_button_timeout (mkLogic cfgHeldOnly)
      ⟨ButtonState.EVALUATING, some 0, some 0, 1, false⟩
      PhysicalButtonName.Button1 600).2 =
      [⟨PhysicalButtonName.Button1, ButtonEventType.HELD⟩] ∧
    (process_button_timeout (mkLogic cfgHeldOnly)
      ⟨ButtonState.EVALUATING, some 0, some 0, 1, false⟩
      PhysicalButtonName.Button1 600).1.action_fired = true := by
  decide

/-- C1 as amended: for a held-only button still asserted when the threshold
expires, only the timeout-sweep path emits the HELD event and marks
`action_fired`; the signal path transitions the machine to HELD but emits
no event and leaves `action_fired` false, so the two paths are not
equivalent in outcome for the same elapsed time. -/
theorem c1_signal_vs_timeout (l : HoldIntentLogic)
    (sm : ButtonStateMachine ButtonState) (b : PhysicalButtonName) (now t0 : Nat)
    (hlock : l.config_src.lock_ok = true)
    (hh : l.config_src.has_held b = true)
    (hp : l.config_src.has_pressed b = false)
    (hstate : sm.current_state = ButtonState.EVALUATING)
    (hfired : sm.action_fired = false)
    (hfirst : sm.first_signal_time = some t0)
    (hthr : l.config_src.hold_threshold b l.global_default_threshold_ms ≤ now - t0) :
    (l.process_input sm ⟨b, true⟩ now).2 = StateTransition.Continue ∧
    (l.process_input sm ⟨b, true⟩ now).1.current_state = ButtonState.HELD ∧
    (l.process_input sm ⟨b, true⟩ now).1.action_fired = false ∧
    (process_button_timeout l sm b now).2 = [⟨b, ButtonEventType.HELD⟩] ∧
    (process_button_timeout l sm b now).1.action_fired = true ∧
    (process_button_timeout l sm b now).1.current_state = ButtonState.HELD := by
  obtain ⟨st, first, last, cnt, fired⟩ := sm
  simp only [ButtonStateMachine.current_state] at hstate
  simp only [ButtonStateMachine.first_signal_time] at hfirst
  simp only [ButtonStateMachine.action_fired] at hfired
  subst hstate
  subst hfirst
  subst hfired
  simp [HoldIntentLogic.process_input, ButtonStateMachine.state,
    ButtonStateMachine.time_since_first_signal, HoldIntentLogic.get_button_config,
    hlock, hp, hh, hthr, HoldIntentLogic.handle_evaluating_with_signal,
    ButtonStateMachine.record_signal, ButtonStateMachine.transition_to,
    ButtonStateMachine.mark_action_fired, process_button_timeout,
    StateTransition.events_of]

/-- Witness for the amended C1 at the concrete held-only configuration,
first signal at 0, repeated signal and sweep at 600ms ≥ 500ms threshold. -/
theorem c1_signal_vs_timeout_witness :
    ((mkLogic cfgHeldOnly).process_input
      ⟨ButtonState.EVALUATING, some 0, some 0, 1, false⟩
      ⟨PhysicalButtonName.Button1, true⟩ 600).2 = StateTransition.Continue ∧
    ((mkLogic cfgHeldOnly).process_input
      ⟨ButtonState.EVALUATING, some 0, some 0, 1, false⟩
      ⟨PhysicalButtonName.Button1, true⟩ 600).1.current_state = ButtonState.HELD ∧
    ((mkLogic cfgHeldOnly).process_input
      ⟨ButtonState.EVALUATING, some 0, some 0, 1, false⟩
      ⟨PhysicalButtonName.Button1, true⟩ 600).1.action_fired = false ∧
    (process_button_timeout (mkLogic cfgHeldOnly)
      ⟨ButtonState.EVALUATING, some 0, some 0, 1, false⟩
      PhysicalButtonName.Button1 600).2 =
      [⟨PhysicalButtonName.Button1, ButtonEventType.HELD⟩] ∧
    (process_button_timeout (mkLogic cfgHeldOnly)
      ⟨ButtonState.EVALUATING, some 0, some 0, 1, false⟩
      PhysicalButtonName.Button1 600).1.action_fired = true ∧
    (process_button_timeout (mkLogic cfgHeldOnly)
      ⟨ButtonState.EVALUATING, some 0, some 0, 1, false⟩
      PhysicalButtonName.Button1 600).1.current_state = ButtonState.HELD :=
  c1_signal_vs_timeout (mkLogic cfgHeldOnly)
    ⟨ButtonState.EVALUATING, some 0, some 0, 1, false⟩
    PhysicalButtonName.Button1 600 0 rfl rfl rfl rfl rfl rfl (by decide)

/-- Helper for C8: one dispatch step from a machine with `action_fired`
set, mid-episode (state not IDLE), emits no PRESSED or HELD event; and
unless the dispatcher reset the machine during the step, `action_fired`
stays set and the state stays away from IDLE. -/
theorem fired_step_no_action (l : HoldIntentLogic) (sm : ButtonStateMachine ButtonState)
    (s : DispatchStep)
    (hfired : sm.action_fired = true) (hstate : sm.current_state ≠ ButtonState.IDLE) :
    no_action_event (dispatch_step l sm s).2.1 ∧
    ((dispatch_step l sm s).2.2 = false →
      (dispatch_step l sm s).1.action_fired = true ∧
      (dispatch_step l sm s).1.current_state ≠ ButtonState.IDLE) := by
  obtain ⟨st, first, last, cnt, fired⟩ := sm
  simp only [ButtonStateMachine.action_fired] at hfired
  simp only [ButtonStateMachine.current_state] at hstate
  subst hfired
  cases s with
  | timeout b now =>
      cases st <;> cases first <;>
        simp [dispatch_step, process_button_timeout, ButtonStateMachine.state,
          ButtonStateMachine.time_since_first_signal, no_action_event, hstate] <;>
        (try split_ifs) <;>
        simp_all [no_action_event]
  | signal input now =>
      obtain ⟨b, ip⟩ := input
      cases st with
      | IDLE => exact absurd rfl hstate
      | EVALUATING =>
          cases ip <;> cases first <;>
            simp [dispatch_step, HoldIntentLogic.process_input, ButtonStateMachine.state,
              ButtonStateMachine.time_since_first_signal,
              HoldIntentLogic.handle_evaluating_with_signal,
              ButtonStateMachine.record_signal, ButtonStateMachine.transition_to,
              apply_transition, ButtonStateMachine.reset,
              no_action_event, StateTransition.events_of] <;>
            split_ifs <;>
            simp_all [no_action_event, apply_transition, ButtonStateMachine.reset,
              ButtonStateMachine.transition_to]
      | HELD =>
          cases ip <;>
            simp [dispatch_step, HoldIntentLogic.process_input, ButtonStateMachine.state,
              ButtonStateMachine.transition_to, apply_transition, ButtonStateMachine.reset,
              no_action_event, StateTransition.events_of] <;>
            split_ifs <;>
            simp_all [no_action_event, apply_transition, ButtonStateMachine.reset,
              ButtonStateMachine.transition_to]
      | RELEASING =>
          cases ip <;> cases first <;>
            simp [dispatch_step, HoldIntentLogic.process_input, ButtonStateMachine.state,
              ButtonStateMachine.record_signal, ButtonStateMachine.transition_to,
              apply_transition, ButtonStateMachine.reset,
              no_action_event, StateTransition.events_of]

/-- C8: once `action_fired` is true, no further PRESSED or HELD event is
emitted over any sequence of `process_input` / timeout calls of the
episode, up to and including the step on which the dispatcher resets the
state machine. -/
theorem c8_action_fired_idempotent (l : HoldIntentLogic)
    (sm : ButtonStateMachine ButtonState) (steps : List DispatchStep)
    (hfired : sm.action_fired = true) (hstate : sm.current_state ≠ ButtonState.IDLE) :
    no_action_event (run_events_until_reset l sm steps) := by
  induction steps generalizing sm with
  | nil =>
      intro e he
      simp [run_events_until_reset] at he
  | cons s rest ih =>
      have h := fired_step_no_action l sm s hfired hstate
      by_cases hd : (dispatch_step l sm s).2.2 = true
      · intro e he
        simp only [run_events_until_reset, hd, if_true] at he
        exact h.1 e he
      · have hd' : (dispatch_step l sm s).2.2 = false := by
          simpa using hd
        intro e he
        simp only [run_events_until_reset, hd', Bool.false_eq_true, if_false] at he
        rcases List.mem_append.mp he with h3 | h3
        · exact h.1 e h3
        · exact ih _ (h.2 hd').1 (h.2 hd').2 e h3

/-- Witness for C8: machine in HELD with `action_fired` set; a release (the
dispatcher resets on the RELEASING emission) followed by a fresh press. -/
theorem c8_action_fired_idempotent_witness :
    no_action_event (run_events_until_reset (mkLogic cfgPressedHeldRel)
      ⟨ButtonState.HELD, some 0, some 0, 2, true⟩
      [DispatchStep.timeout PhysicalButtonName.Button1 1100,
        DispatchStep.signal ⟨PhysicalButtonName.Button1, false⟩ 1200,
        DispatchStep.signal ⟨PhysicalButtonName.Button1, true⟩ 1300]) :=
  c8_action_fired_idempotent (mkLogic cfgPressedHeldRel)
    ⟨ButtonState.HELD, some 0, some 0, 2, true⟩
    [DispatchStep.timeout PhysicalButtonName.Button1 1100,
      DispatchStep.signal ⟨PhysicalButtonName.Button1, false⟩ 1200,
      DispatchStep.signal ⟨PhysicalButtonName.Button1, true⟩ 1300]
    rfl (by decide)

end PedalCore
